import Mathlib

/-!
Shallow embedding of the DezenMart logistics escrow program
(`src/src/main.rs`, Anchor program `dezenmart_logistics`).

Identities (`Pubkey`) are modelled as naturals; `u64` quantities and
amounts are modelled as `Nat` (the guarded subtractions in the source
never underflow; the unchecked multiplications are analysed separately
with explicit wrapping modulo `2 ^ 64`).  Each Anchor instruction becomes
a pure function over the accounts it touches, returning
`Except LogisticsError` of the updated accounts; errors mirror the
source's `require!` order.
-/

namespace Dezenmart

abbrev Pubkey := Nat

/-- Constants from the top of the `dezenmart_logistics` module. -/
def ESCROW_FEE_PERCENT : Nat := 250

def BASIS_POINTS : Nat := 10000

def MAX_LOGISTICS_PROVIDERS : Nat := 10

def MAX_PURCHASE_IDS : Nat := 100

/-- The `GlobalState` account (admin key, trade and purchase counters). -/
structure GlobalState where
  admin : Pubkey
  trade_counter : Nat
  purchase_counter : Nat
deriving DecidableEq

/-- The `TradeAccount` record: one seller's standing offer. -/
structure TradeAccount where
  trade_id : Nat
  seller : Pubkey
  logistics_providers : List Pubkey
  logistics_costs : List Nat
  product_cost : Nat
  escrow_fee : Nat
  total_quantity : Nat
  remaining_quantity : Nat
  active : Bool
  purchase_ids : List Nat
  token_mint : Pubkey
deriving DecidableEq

/-- The `PurchaseAccount` record: one buyer's commitment against a trade. -/
structure PurchaseAccount where
  purchase_id : Nat
  trade_id : Nat
  buyer : Pubkey
  quantity : Nat
  total_amount : Nat
  delivered_and_confirmed : Bool
  disputed : Bool
  chosen_logistics_provider : Pubkey
  logistics_cost : Nat
  settled : Bool
deriving DecidableEq

/-- The `BuyerAccount` registry entry. -/
structure BuyerAccount where
  buyer : Pubkey
  is_registered : Bool
  purchase_ids : List Nat
deriving DecidableEq

/-- The `LogisticsError` enum of the source, extended with
`TransferFailed` (the spec's name for a token-program error propagated
by the `?` on `token::transfer`) and `AccountNotFound` (an Anchor
account-resolution failure for a purchase account that does not exist). -/
inductive LogisticsError where
  | MismatchedArrays
  | NoLogisticsProviders
  | TooManyProviders
  | InvalidQuantity
  | TradeInactive
  | InsufficientQuantity
  | BuyerIsSeller
  | InvalidLogisticsProvider
  | NotAuthorized
  | AlreadyConfirmed
  | Disputed
  | AlreadySettled
  | AlreadyDisputed
  | NotDisputed
  | InvalidWinner
  | NoFeesToWithdraw
  | TransferFailed
  | AccountNotFound
deriving DecidableEq

instance {e a : Type} [DecidableEq e] [DecidableEq a] :
    DecidableEq (Except e a) := fun x y =>
  match x, y with
  | .ok v, .ok w =>
    if h : v = w then isTrue (by rw [h]) else isFalse (by simp [h])
  | .error v, .error w =>
    if h : v = w then isTrue (by rw [h]) else isFalse (by simp [h])
  | .ok _, .error _ => isFalse (by simp)
  | .error _, .ok _ => isFalse (by simp)

/-- Modelled from the spec: the external Ledger capability of §6 keeps a
fungible balance per holding account, and a set of frozen accounts. -/
structure Ledger where
  balances : List (Pubkey × Nat)
  frozen : List Pubkey
deriving DecidableEq

/-- Balance of a holding account (0 when absent). -/
def Ledger.balanceOf (l : Ledger) (a : Pubkey) : Nat :=
  (l.balances.lookup a).getD 0

/-- Set a balance in the association list (append when absent). -/
def setBal : List (Pubkey × Nat) → Pubkey → Nat → List (Pubkey × Nat)
  | [], a, v => [(a, v)]
  | (b, w) :: rest, a, v =>
    if b = a then (a, v) :: rest else (b, w) :: setBal rest a v

/-- Modelled from the spec: `Ledger.transfer` (§6) debits `source` and
credits `dest`, failing on a frozen account or insufficient balance. -/
def Ledger.transfer (l : Ledger) (source dest : Pubkey) (amount : Nat) :
    Option Ledger :=
  if l.frozen.contains source ∨ l.frozen.contains dest then none
  else if l.balanceOf source < amount then none
  else
    let l1 : Ledger := { l with balances := setBal l.balances source (l.balanceOf source - amount) }
    some { l1 with balances := setBal l1.balances dest (l1.balanceOf dest + amount) }

/-- Product-side escrow fee, line 230 (and 349) of the source:
`(product_cost * ESCROW_FEE_PERCENT * quantity) / BASIS_POINTS`. -/
def product_escrow_fee (product_cost quantity : Nat) : Nat :=
  product_cost * ESCROW_FEE_PERCENT * quantity / BASIS_POINTS

/-- Seller payout, line 231 (and 350) of the source. -/
def seller_amount (product_cost quantity : Nat) : Nat :=
  product_cost * quantity - product_escrow_fee product_cost quantity

/-- Logistics-side escrow fee, line 258 (and 363) of the source. -/
def logistics_escrow_fee (logistics_cost : Nat) : Nat :=
  logistics_cost * ESCROW_FEE_PERCENT / BASIS_POINTS

/-- Logistics payout, line 259 (and 364) of the source. -/
def logistics_amount (logistics_cost : Nat) : Nat :=
  logistics_cost - logistics_escrow_fee logistics_cost

/-- Instruction `create_trade` (lines 55-108): validation cascade, counter bump and
the freshly initialised `TradeAccount`. -/
def create_trade (global : GlobalState) (seller token_mint : Pubkey)
    (product_cost : Nat) (logistics_providers : List Pubkey)
    (logistics_costs : List Nat) (total_quantity : Nat) :
    Except LogisticsError (GlobalState × TradeAccount) :=
  if ¬ logistics_providers.length = logistics_costs.length then
    .error .MismatchedArrays
  else if logistics_providers.isEmpty then
    .error .NoLogisticsProviders
  else if ¬ logistics_providers.length ≤ MAX_LOGISTICS_PROVIDERS then
    .error .TooManyProviders
  else if ¬ total_quantity > 0 then
    .error .InvalidQuantity
  else
    let trade_counter := global.trade_counter + 1
    let trade_id := trade_counter
    let product_escrow_fee := product_cost * ESCROW_FEE_PERCENT / BASIS_POINTS
    .ok ({ global with trade_counter := trade_counter },
      { trade_id := trade_id
        seller := seller
        logistics_providers := logistics_providers
        logistics_costs := logistics_costs
        product_cost := product_cost
        escrow_fee := product_escrow_fee
        total_quantity := total_quantity
        remaining_quantity := total_quantity
        active := true
        purchase_ids := []
        token_mint := token_mint })

/-- Linear scan of lines 130-138: first provider equal to the target
wins, paired with the cost at the same index. -/
def findLogisticsCost : List Pubkey → List Nat → Pubkey → Option Nat
  | p :: ps, c :: cs, target =>
    if p = target then some c else findLogisticsCost ps cs target
  | _, _, _ => none

/-- Instruction `buy_trade` (lines 110-210): guards, logistics lookup, cost
computation, escrow transfer, purchase creation and trade/buyer updates. -/
def buy_trade (global : GlobalState) (trade : TradeAccount)
    (buyerAcct : BuyerAccount) (ledger : Ledger)
    (buyer buyer_token_account escrow_token_account : Pubkey)
    (trade_id quantity : Nat) (logistics_provider : Pubkey) :
    Except LogisticsError
      (GlobalState × TradeAccount × PurchaseAccount × BuyerAccount × Ledger) :=
  if ¬ quantity > 0 then .error .InvalidQuantity
  else if ¬ trade.active then .error .TradeInactive
  else if ¬ trade.remaining_quantity ≥ quantity then .error .InsufficientQuantity
  else if buyer = trade.seller then .error .BuyerIsSeller
  else
    match findLogisticsCost trade.logistics_providers trade.logistics_costs
        logistics_provider with
    | none => .error .InvalidLogisticsProvider
    | some chosen_logistics_cost =>
      let total_product_cost := trade.product_cost * quantity
      let total_logistics_cost := chosen_logistics_cost * quantity
      let total_amount := total_product_cost + total_logistics_cost
      match ledger.transfer buyer_token_account escrow_token_account total_amount with
      | none => .error .TransferFailed
      | some ledger' =>
        let purchase_counter := global.purchase_counter + 1
        let purchase_id := purchase_counter
        let purchase : PurchaseAccount :=
          { purchase_id := purchase_id
            trade_id := trade_id
            buyer := buyer
            quantity := quantity
            total_amount := total_amount
            delivered_and_confirmed := false
            disputed := false
            chosen_logistics_provider := logistics_provider
            logistics_cost := total_logistics_cost
            settled := false }
        let trade1 := { trade with
          remaining_quantity := trade.remaining_quantity - quantity
          purchase_ids :=
            if trade.purchase_ids.length < MAX_PURCHASE_IDS then
              trade.purchase_ids ++ [purchase_id]
            else trade.purchase_ids }
        let trade2 :=
          if trade1.remaining_quantity = 0 then { trade1 with active := false }
          else trade1
        let buyerAcct1 :=
          if ¬ buyerAcct.is_registered then
            { buyer := buyer, is_registered := true,
              purchase_ids := ([] : List Nat) }
          else buyerAcct
        let buyerAcct2 :=
          if buyerAcct1.purchase_ids.length < MAX_PURCHASE_IDS then
            { buyerAcct1 with purchase_ids := buyerAcct1.purchase_ids ++ [purchase_id] }
          else buyerAcct1
        .ok ({ global with purchase_counter := purchase_counter },
          trade2, purchase, buyerAcct2, ledger')

/-- Instruction `confirm_delivery_and_purchase` (lines 212-277): buyer-only guards,
flag flips, then the seller and logistics payouts from escrow. -/
def confirm_delivery_and_purchase (purchase : PurchaseAccount)
    (trade : TradeAccount) (ledger : Ledger)
    (buyer escrow_token_account seller_token_account logistics_token_account :
      Pubkey) :
    Except LogisticsError (PurchaseAccount × Ledger) :=
  if ¬ buyer = purchase.buyer then .error .NotAuthorized
  else if purchase.delivered_and_confirmed then .error .AlreadyConfirmed
  else if purchase.disputed then .error .Disputed
  else if purchase.settled then .error .AlreadySettled
  else
    let purchase' := { purchase with delivered_and_confirmed := true, settled := true }
    match ledger.transfer escrow_token_account seller_token_account
        (seller_amount trade.product_cost purchase.quantity) with
    | none => .error .TransferFailed
    | some ledger1 =>
      match ledger1.transfer escrow_token_account logistics_token_account
          (logistics_amount purchase.logistics_cost) with
      | none => .error .TransferFailed
      | some ledger2 => .ok (purchase', ledger2)

/-- Instruction `raise_dispute` (lines 279-295): no authorization beyond a signer;
only the two flag guards. -/
def raise_dispute (purchase : PurchaseAccount) (_user : Pubkey) :
    Except LogisticsError PurchaseAccount :=
  if purchase.delivered_and_confirmed then .error .AlreadyConfirmed
  else if purchase.disputed then .error .AlreadyDisputed
  else .ok { purchase with disputed := true }

/-- Instruction `resolve_dispute` (lines 297-384): dispute guards, winner check,
then either the buyer refund (with inventory restore and possible
reactivation) or the seller+logistics payout with no inventory change. -/
def resolve_dispute (purchase : PurchaseAccount) (trade : TradeAccount)
    (ledger : Ledger)
    (winner escrow_token_account buyer_token_account seller_token_account
      logistics_token_account : Pubkey) :
    Except LogisticsError (PurchaseAccount × TradeAccount × Ledger) :=
  if ¬ purchase.disputed then .error .NotDisputed
  else if purchase.settled then .error .AlreadySettled
  else if ¬ (winner = purchase.buyer ∨ winner = trade.seller ∨
      winner = purchase.chosen_logistics_provider) then
    .error .InvalidWinner
  else
    let purchase' := { purchase with delivered_and_confirmed := true, settled := true }
    if winner = purchase.buyer then
      match ledger.transfer escrow_token_account buyer_token_account
          purchase.total_amount with
      | none => .error .TransferFailed
      | some ledger' =>
        let trade1 := { trade with
          remaining_quantity := trade.remaining_quantity + purchase.quantity }
        let trade2 :=
          if ¬ trade1.active ∧ trade1.remaining_quantity > 0 then
            { trade1 with active := true }
          else trade1
        .ok (purchase', trade2, ledger')
    else
      match ledger.transfer escrow_token_account seller_token_account
          (seller_amount trade.product_cost purchase.quantity) with
      | none => .error .TransferFailed
      | some ledger1 =>
        match ledger1.transfer escrow_token_account logistics_token_account
            (logistics_amount purchase.logistics_cost) with
        | none => .error .TransferFailed
        | some ledger2 => .ok (purchase', trade, ledger2)

/-- Instruction `cancel_purchase` (lines 386-434): buyer-only guards, flag flips,
inventory restore with possible reactivation, then the full refund. -/
def cancel_purchase (purchase : PurchaseAccount) (trade : TradeAccount)
    (ledger : Ledger)
    (buyer escrow_token_account buyer_token_account : Pubkey) :
    Except LogisticsError (PurchaseAccount × TradeAccount × Ledger) :=
  if ¬ buyer = purchase.buyer then .error .NotAuthorized
  else if purchase.delivered_and_confirmed then .error .AlreadyConfirmed
  else if purchase.disputed then .error .Disputed
  else if purchase.settled then .error .AlreadySettled
  else
    let purchase' := { purchase with delivered_and_confirmed := true, settled := true }
    let trade1 := { trade with
      remaining_quantity := trade.remaining_quantity + purchase.quantity }
    let trade2 :=
      if ¬ trade1.active ∧ trade1.remaining_quantity > 0 then
        { trade1 with active := true }
      else trade1
    match ledger.transfer escrow_token_account buyer_token_account
        purchase.total_amount with
    | none => .error .TransferFailed
    | some ledger' => .ok (purchase', trade2, ledger')

/-!
Purchase-level labelled transition system: the operations that can hit
one existing purchase (and its trade) after `buy_trade` created it.
A step exists exactly when the corresponding instruction succeeds.
-/

/-- State carried by the purchase-level transition system. -/
structure PState where
  purchase : PurchaseAccount
  trade : TradeAccount
  ledger : Ledger
deriving DecidableEq

/-- An attempted instruction on one purchase, with the caller-chosen
account keys as labels. -/
inductive POp where
  | confirmOp (buyer escrow sellerTok logTok : Pubkey)
  | raiseOp (user : Pubkey)
  | resolveOp (winner escrow buyerTok sellerTok logTok : Pubkey)
  | cancelOp (buyer escrow buyerTok : Pubkey)
deriving DecidableEq

/-- Run one purchase-level instruction, threading the shared accounts. -/
def runPOp (s : PState) : POp → Except LogisticsError PState
  | .confirmOp buyer escrow st lt =>
    (confirm_delivery_and_purchase s.purchase s.trade s.ledger buyer escrow st lt).map
      fun r => { s with purchase := r.1, ledger := r.2 }
  | .raiseOp user =>
    (raise_dispute s.purchase user).map fun p => { s with purchase := p }
  | .resolveOp w e bt st lt =>
    (resolve_dispute s.purchase s.trade s.ledger w e bt st lt).map
      fun r => { purchase := r.1, trade := r.2.1, ledger := r.2.2 }
  | .cancelOp buyer e bt =>
    (cancel_purchase s.purchase s.trade s.ledger buyer e bt).map
      fun r => { purchase := r.1, trade := r.2.1, ledger := r.2.2 }

/-- The four settling entry points (everything except `raise_dispute`). -/
def isSettleOp : POp → Bool
  | .raiseOp _ => false
  | _ => true

/-- A sequence of successful purchase-level instructions. -/
inductive PTrace : PState → List POp → PState → Prop where
  | nil (s : PState) : PTrace s [] s
  | cons {s s' s'' : PState} {op : POp} {ops : List POp} :
      runPOp s op = .ok s' → PTrace s' ops s'' → PTrace s (op :: ops) s''

/-!
Trade-level labelled transition system for inventory conservation:
`buy_trade` / `raise_dispute` / `cancel_purchase` / buyer-winner
`resolve_dispute` against one trade, purchases addressed by position.
-/

/-- State carried by the trade-level transition system. -/
structure TState where
  global : GlobalState
  trade : TradeAccount
  purchases : List PurchaseAccount
  ledger : Ledger
deriving DecidableEq

/-- An attempted trade-level instruction (`i` indexes `purchases`). -/
inductive TOp where
  | buyOp (buyer provider btok etok : Pubkey) (quantity : Nat)
  | raiseAt (i : Nat) (user : Pubkey)
  | cancelAt (i : Nat) (escrow btok : Pubkey)
  | resolveBuyerAt (i : Nat) (escrow btok stok ltok : Pubkey)
deriving DecidableEq

/-- Run one trade-level instruction.  `buy_trade` is called with a fresh
unregistered buyer record (its buyer-registry update does not feed back
into the trade or purchase state).  `cancel_purchase` is invoked by the
purchase's own buyer, and `resolve_dispute` with the buyer as winner,
matching the operations named by the inventory-conservation property. -/
def runTOp (s : TState) : TOp → Except LogisticsError TState
  | .buyOp buyer provider btok etok q =>
    (buy_trade s.global s.trade
        { buyer := buyer, is_registered := false, purchase_ids := [] }
        s.ledger buyer btok etok s.trade.trade_id q provider).map
      fun r =>
        { global := r.1
          trade := r.2.1
          purchases := s.purchases ++ [r.2.2.1]
          ledger := r.2.2.2.2 }
  | .raiseAt i user =>
    match s.purchases[i]? with
    | none => .error .AccountNotFound
    | some p =>
      (raise_dispute p user).map fun p' =>
        { s with purchases := s.purchases.set i p' }
  | .cancelAt i escrow btok =>
    match s.purchases[i]? with
    | none => .error .AccountNotFound
    | some p =>
      (cancel_purchase p s.trade s.ledger p.buyer escrow btok).map
        fun r =>
          { s with
            purchases := s.purchases.set i r.1
            trade := r.2.1
            ledger := r.2.2 }
  | .resolveBuyerAt i escrow btok stok ltok =>
    match s.purchases[i]? with
    | none => .error .AccountNotFound
    | some p =>
      (resolve_dispute p s.trade s.ledger p.buyer escrow btok stok ltok).map
        fun r =>
          { s with
            purchases := s.purchases.set i r.1
            trade := r.2.1
            ledger := r.2.2 }

/-- A sequence of successful trade-level instructions. -/
inductive TTrace : TState → List TOp → TState → Prop where
  | nil (s : TState) : TTrace s [] s
  | cons {s s' s'' : TState} {op : TOp} {ops : List TOp} :
      runTOp s op = .ok s' → TTrace s' ops s'' → TTrace s (op :: ops) s''

/-- Total quantity of the purchases in the list that are not settled
(within the buy/raise/cancel/buyer-wins universe, exactly the purchases
that have not been refunded). -/
def unsettledSum (ps : List PurchaseAccount) : Nat :=
  (ps.map fun p => if p.settled then 0 else p.quantity).sum

/-- Inventory-conservation invariant of a trade-level state. -/
def InvT (s : TState) : Prop :=
  s.trade.remaining_quantity + unsettledSum s.purchases = s.trade.total_quantity

/-! ### Helper lemmas -/

theorem product_escrow_fee_le (c q : Nat) : product_escrow_fee c q ≤ c * q := by
  unfold product_escrow_fee ESCROW_FEE_PERCENT BASIS_POINTS
  exact Nat.div_le_of_le_mul' (by nlinarith)

theorem logistics_escrow_fee_le (lc : Nat) : logistics_escrow_fee lc ≤ lc := by
  unfold logistics_escrow_fee ESCROW_FEE_PERCENT BASIS_POINTS
  exact Nat.div_le_of_le_mul' (by nlinarith)

/-- The two payout legs and the two fees recombine to the gross amounts. -/
theorem fee_split_conserves (c q lc : Nat) :
    seller_amount c q + logistics_amount lc + product_escrow_fee c q +
      logistics_escrow_fee lc = c * q + lc := by
  have h1 := product_escrow_fee_le c q
  have h2 := logistics_escrow_fee_le lc
  unfold seller_amount logistics_amount
  omega

/-- Everything `buy_trade` guarantees about a successful call. -/
theorem buy_trade_ok {g : GlobalState} {t : TradeAccount} {b : BuyerAccount}
    {l : Ledger} {buyer btok etok : Pubkey} {tid q : Nat} {prov : Pubkey}
    {out : GlobalState × TradeAccount × PurchaseAccount × BuyerAccount × Ledger}
    (h : buy_trade g t b l buyer btok etok tid q prov = .ok out) :
    0 < q ∧ t.active = true ∧ q ≤ t.remaining_quantity ∧
    out.1.purchase_counter = g.purchase_counter + 1 ∧
    out.2.1.remaining_quantity = t.remaining_quantity - q ∧
    out.2.1.total_quantity = t.total_quantity ∧
    out.2.1.product_cost = t.product_cost ∧
    out.2.1.purchase_ids =
      (if t.purchase_ids.length < MAX_PURCHASE_IDS then
        t.purchase_ids ++ [g.purchase_counter + 1] else t.purchase_ids) ∧
    out.2.1.active = (if t.remaining_quantity - q = 0 then false else t.active) ∧
    out.2.2.1.purchase_id = g.purchase_counter + 1 ∧
    out.2.2.1.buyer = buyer ∧
    out.2.2.1.quantity = q ∧
    out.2.2.1.settled = false ∧
    out.2.2.1.delivered_and_confirmed = false ∧
    out.2.2.1.disputed = false ∧
    (∃ lc, findLogisticsCost t.logistics_providers t.logistics_costs prov = some lc ∧
      out.2.2.1.logistics_cost = lc * q ∧
      out.2.2.1.total_amount = t.product_cost * q + lc * q) := by
  unfold buy_trade at h
  split at h
  · exact absurd h (by simp)
  split at h
  · exact absurd h (by simp)
  split at h
  · exact absurd h (by simp)
  split at h
  · exact absurd h (by simp)
  split at h
  · exact absurd h (by simp)
  next lc hfind =>
  dsimp only at h
  split at h
  · exact absurd h (by simp)
  next ledger' htrans =>
  simp only [Except.ok.injEq] at h
  subst h
  refine ⟨by omega, by simp_all, by omega, rfl, ?_, ?_, ?_, ?_, ?_,
    rfl, rfl, rfl, rfl, rfl, rfl, lc, hfind, rfl, rfl⟩
  · split <;> rfl
  · split <;> rfl
  · split <;> rfl
  · split <;> rfl
  · split <;> simp_all

/-- Everything `cancel_purchase` guarantees about a successful call. -/
theorem cancel_purchase_ok {p : PurchaseAccount} {t : TradeAccount} {l : Ledger}
    {buyer e bt : Pubkey} {out : PurchaseAccount × TradeAccount × Ledger}
    (h : cancel_purchase p t l buyer e bt = .ok out) :
    buyer = p.buyer ∧ p.delivered_and_confirmed = false ∧ p.disputed = false ∧
    p.settled = false ∧
    out.1 = { p with delivered_and_confirmed := true, settled := true } ∧
    out.2.1.remaining_quantity = t.remaining_quantity + p.quantity ∧
    out.2.1.total_quantity = t.total_quantity ∧
    out.2.1.product_cost = t.product_cost ∧
    (out.2.1.active = true ↔
      (t.active = true ∨ 0 < t.remaining_quantity + p.quantity)) := by
  unfold cancel_purchase at h
  split at h
  · exact absurd h (by simp)
  split at h
  · exact absurd h (by simp)
  split at h
  · exact absurd h (by simp)
  split at h
  · exact absurd h (by simp)
  dsimp only at h
  split at h
  · exact absurd h (by simp)
  next ledger' htrans =>
  simp only [Except.ok.injEq] at h
  subst h
  refine ⟨by tauto, by simp_all, by simp_all, by simp_all, rfl, ?_, ?_, ?_, ?_⟩
  · split <;> rfl
  · split <;> rfl
  · split <;> rfl
  · constructor
    · intro hact
      split at hact <;> simp_all
    · intro hor
      split
      · rfl
      next hcond =>
        simp only [not_and, not_lt, Nat.le_zero] at hcond
        rcases hor with ha | hpos
        · simpa using ha
        · by_cases hta : t.active = true
          · simpa using hta
          · exact absurd (hcond (by simpa using hta)) (by omega)

/-- Everything buyer-winner `resolve_dispute` guarantees on success. -/
theorem resolve_dispute_buyer_ok {p : PurchaseAccount} {t : TradeAccount}
    {l : Ledger} {e bt st lt : Pubkey}
    {out : PurchaseAccount × TradeAccount × Ledger}
    (h : resolve_dispute p t l p.buyer e bt st lt = .ok out) :
    p.disputed = true ∧ p.settled = false ∧
    out.1 = { p with delivered_and_confirmed := true, settled := true } ∧
    out.2.1.remaining_quantity = t.remaining_quantity + p.quantity ∧
    out.2.1.total_quantity = t.total_quantity ∧
    out.2.1.product_cost = t.product_cost ∧
    (out.2.1.active = true ↔
      (t.active = true ∨ 0 < t.remaining_quantity + p.quantity)) := by
  unfold resolve_dispute at h
  split at h
  · exact absurd h (by simp)
  split at h
  · exact absurd h (by simp)
  split at h
  · exact absurd h (by simp)
  rw [if_pos rfl] at h
  dsimp only at h
  split at h
  · exact absurd h (by simp)
  next ledger' htrans =>
  simp only [Except.ok.injEq] at h
  subst h
  refine ⟨by simp_all, by simp_all, rfl, ?_, ?_, ?_, ?_⟩
  · split <;> rfl
  · split <;> rfl
  · split <;> rfl
  · constructor
    · intro hact
      split at hact <;> simp_all
    · intro hor
      split
      · rfl
      next hcond =>
        simp only [not_and, not_lt, Nat.le_zero] at hcond
        rcases hor with ha | hpos
        · simpa using ha
        · by_cases hta : t.active = true
          · simpa using hta
          · exact absurd (hcond (by simpa using hta)) (by omega)

/-- Everything `raise_dispute` guarantees about a successful call. -/
theorem raise_dispute_ok {p : PurchaseAccount} {u : Pubkey}
    {p' : PurchaseAccount} (h : raise_dispute p u = .ok p') :
    p.delivered_and_confirmed = false ∧ p.disputed = false ∧
    p' = { p with disputed := true } := by
  unfold raise_dispute at h
  split at h
  · exact absurd h (by simp)
  split at h
  · exact absurd h (by simp)
  simp only [Except.ok.injEq] at h
  subst h
  exact ⟨by simp_all, by simp_all, rfl⟩

/-- Everything `confirm_delivery_and_purchase` guarantees on success. -/
theorem confirm_ok {p : PurchaseAccount} {t : TradeAccount} {l : Ledger}
    {buyer e st lt : Pubkey} {out : PurchaseAccount × Ledger}
    (h : confirm_delivery_and_purchase p t l buyer e st lt = .ok out) :
    buyer = p.buyer ∧ p.delivered_and_confirmed = false ∧ p.disputed = false ∧
    p.settled = false ∧
    out.1 = { p with delivered_and_confirmed := true, settled := true } := by
  unfold confirm_delivery_and_purchase at h
  split at h
  · exact absurd h (by simp)
  split at h
  · exact absurd h (by simp)
  split at h
  · exact absurd h (by simp)
  split at h
  · exact absurd h (by simp)
  dsimp only at h
  split at h
  · exact absurd h (by simp)
  split at h
  · exact absurd h (by simp)
  simp only [Except.ok.injEq] at h
  subst h
  exact ⟨by tauto, by simp_all, by simp_all, by simp_all, rfl⟩

/-- Any successful `resolve_dispute` (either winner) settles the
purchase and marks it delivered. -/
theorem resolve_dispute_ok {p : PurchaseAccount} {t : TradeAccount}
    {l : Ledger} {w e bt st lt : Pubkey}
    {out : PurchaseAccount × TradeAccount × Ledger}
    (h : resolve_dispute p t l w e bt st lt = .ok out) :
    p.disputed = true ∧ p.settled = false ∧
    out.1 = { p with delivered_and_confirmed := true, settled := true } ∧
    out.2.1.total_quantity = t.total_quantity ∧
    out.2.1.product_cost = t.product_cost := by
  unfold resolve_dispute at h
  split at h
  · exact absurd h (by simp)
  split at h
  · exact absurd h (by simp)
  split at h
  · exact absurd h (by simp)
  dsimp only at h
  split at h
  · -- buyer-winner branch
    split at h
    · exact absurd h (by simp)
    simp only [Except.ok.injEq] at h
    subst h
    refine ⟨by simp_all, by simp_all, rfl, ?_, ?_⟩
    · split <;> rfl
    · split <;> rfl
  · -- seller / provider winner branch
    split at h
    · exact absurd h (by simp)
    split at h
    · exact absurd h (by simp)
    simp only [Except.ok.injEq] at h
    subst h
    exact ⟨by simp_all, by simp_all, rfl, rfl, rfl⟩

/-- A delivered-and-confirmed purchase rejects `confirm` by its buyer
with `AlreadyConfirmed`. -/
theorem confirm_already_confirmed {p : PurchaseAccount} {t : TradeAccount}
    {l : Ledger} {e st lt : Pubkey} (hd : p.delivered_and_confirmed = true) :
    confirm_delivery_and_purchase p t l p.buyer e st lt =
      .error .AlreadyConfirmed := by
  unfold confirm_delivery_and_purchase
  rw [if_neg (by simp), if_pos hd]

/-- A delivered-and-confirmed purchase rejects `cancel_purchase` by its
buyer with `AlreadyConfirmed`. -/
theorem cancel_already_confirmed {p : PurchaseAccount} {t : TradeAccount}
    {l : Ledger} {e bt : Pubkey} (hd : p.delivered_and_confirmed = true) :
    cancel_purchase p t l p.buyer e bt = .error .AlreadyConfirmed := by
  unfold cancel_purchase
  rw [if_neg (by simp), if_pos hd]

/-- A settled purchase rejects `resolve_dispute` with `AlreadySettled`
when it is disputed and `NotDisputed` otherwise. -/
theorem resolve_already_settled {p : PurchaseAccount} {t : TradeAccount}
    {l : Ledger} {w e bt st lt : Pubkey} (hs : p.settled = true) :
    resolve_dispute p t l w e bt st lt =
      .error (if p.disputed = true then .AlreadySettled else .NotDisputed) := by
  unfold resolve_dispute
  by_cases hdisp : p.disputed = true
  · rw [if_neg (by simp [hdisp]), if_pos hs, if_pos hdisp]
  · rw [if_pos (by simpa using hdisp), if_neg hdisp]

/-- A delivered-and-confirmed purchase rejects `raise_dispute` with
`AlreadyConfirmed`. -/
theorem raise_already_confirmed {p : PurchaseAccount} {u : Pubkey}
    (hd : p.delivered_and_confirmed = true) :
    raise_dispute p u = .error .AlreadyConfirmed := by
  unfold raise_dispute
  rw [if_pos hd]

/-- A successful settling step starts from an unsettled purchase and
leaves it settled and delivered-and-confirmed. -/
theorem runPOp_settle_ok {s s' : PState} {op : POp}
    (h : runPOp s op = .ok s') (hop : isSettleOp op = true) :
    s.purchase.settled = false ∧ s'.purchase.settled = true ∧
    s'.purchase.delivered_and_confirmed = true := by
  cases op with
  | confirmOp buyer e st lt =>
    simp only [runPOp] at h
    cases hc : confirm_delivery_and_purchase s.purchase s.trade s.ledger
        buyer e st lt with
    | error e2 => rw [hc] at h; exact absurd h (by simp [Except.map])
    | ok r =>
      rw [hc] at h
      simp only [Except.map, Except.ok.injEq] at h
      subst h
      obtain ⟨-, -, -, hs, hp⟩ := confirm_ok hc
      exact ⟨hs, by simp [hp], by simp [hp]⟩
  | raiseOp u => simp [isSettleOp] at hop
  | resolveOp w e bt st lt =>
    simp only [runPOp] at h
    cases hc : resolve_dispute s.purchase s.trade s.ledger w e bt st lt with
    | error e2 => rw [hc] at h; exact absurd h (by simp [Except.map])
    | ok r =>
      rw [hc] at h
      simp only [Except.map, Except.ok.injEq] at h
      subst h
      obtain ⟨-, hs, hp, -, -⟩ := resolve_dispute_ok hc
      exact ⟨hs, by simp [hp], by simp [hp]⟩
  | cancelOp buyer e bt =>
    simp only [runPOp] at h
    cases hc : cancel_purchase s.purchase s.trade s.ledger buyer e bt with
    | error e2 => rw [hc] at h; exact absurd h (by simp [Except.map])
    | ok r =>
      rw [hc] at h
      simp only [Except.map, Except.ok.injEq] at h
      subst h
      obtain ⟨-, -, -, hs, hp⟩ := cancel_purchase_ok hc
      exact ⟨hs, by simp [hp], by simp [hp]⟩

/-- A successful `raise_dispute` step changes neither `settled` nor
`delivered_and_confirmed`. -/
theorem runPOp_raise_ok {s s' : PState} {u : Pubkey}
    (h : runPOp s (.raiseOp u) = .ok s') :
    s'.purchase.settled = s.purchase.settled ∧
    s'.purchase.delivered_and_confirmed =
      s.purchase.delivered_and_confirmed := by
  simp only [runPOp] at h
  cases hc : raise_dispute s.purchase u with
  | error e2 => rw [hc] at h; exact absurd h (by simp [Except.map])
  | ok p' =>
    rw [hc] at h
    simp only [Except.map, Except.ok.injEq] at h
    subst h
    obtain ⟨-, -, hp⟩ := raise_dispute_ok hc
    exact ⟨by simp [hp], by simp [hp]⟩

/-- Field `settled` is monotone along successful purchase-level steps. -/
theorem runPOp_preserves_settled {s s' : PState} {op : POp}
    (h : runPOp s op = .ok s') (hs : s.purchase.settled = true) :
    s'.purchase.settled = true := by
  cases hop : isSettleOp op
  · cases op with
    | raiseOp u => rw [(runPOp_raise_ok h).1]; exact hs
    | confirmOp buyer e st lt => simp [isSettleOp] at hop
    | resolveOp w e bt st lt => simp [isSettleOp] at hop
    | cancelOp buyer e bt => simp [isSettleOp] at hop
  · exact ((runPOp_settle_ok h hop).2).1

/-- From a settled purchase no settling operation ever succeeds again. -/
theorem ptrace_countP_zero {s : PState} {ops : List POp} {s' : PState}
    (h : PTrace s ops s') (hs : s.purchase.settled = true) :
    ops.countP isSettleOp = 0 := by
  induction h with
  | nil => simp
  | cons hstep htail ih =>
    rename_i s1 s2 s3 op ops1
    rw [List.countP_cons]
    cases hop : isSettleOp op
    · simpa [hop] using ih (runPOp_preserves_settled hstep hs)
    · exact absurd (runPOp_settle_ok hstep hop).1 (by simp [hs])

/-! ### Concrete fixtures used by the witnesses -/

/-- A trade created with cost 1000, one logistics option of cost 100 and
total quantity 10, after one purchase of quantity 3. -/
def exTrade : TradeAccount :=
  { trade_id := 1, seller := 2, logistics_providers := [3],
    logistics_costs := [100], product_cost := 1000, escrow_fee := 25,
    total_quantity := 10, remaining_quantity := 7, active := true,
    purchase_ids := [1], token_mint := 5 }

/-- The matching fresh purchase of quantity 3 (total 3300). -/
def exPurchase : PurchaseAccount :=
  { purchase_id := 1, trade_id := 1, buyer := 1, quantity := 3,
    total_amount := 3300, delivered_and_confirmed := false, disputed := false,
    chosen_logistics_provider := 3, logistics_cost := 300, settled := false }

/-- An escrow holding account (key 20) funded with the purchase total. -/
def escrowLedger : Ledger := { balances := [(20, 3300)], frozen := [] }

/-- Purchase-level state holding the fixture purchase. -/
def pstate0 : PState :=
  { purchase := exPurchase, trade := exTrade, ledger := escrowLedger }

/-- State `pstate0` after a successful `cancel_purchase` by the buyer. -/
def pstate1 : PState :=
  { purchase := { exPurchase with delivered_and_confirmed := true, settled := true }
    trade := { exTrade with remaining_quantity := 10 }
    ledger := { balances := [(20, 0), (10, 3300)], frozen := [] } }

/-- C1. Over any sequence of successful operations on one purchase, at
most one of `confirm_delivery_and_purchase`, `resolve_dispute` (either
winner) and `cancel_purchase` succeeds; and once a purchase is settled
(hence delivered-and-confirmed), each of the four fails: `confirm` and
`cancel` (called by the buyer) with `AlreadyConfirmed`, `resolve_dispute`
with `AlreadySettled` when the purchase is disputed and `NotDisputed`
otherwise. -/
theorem c1_settlement_exactly_once :
    (∀ (s : PState) (ops : List POp) (s' : PState),
      PTrace s ops s' → ops.countP isSettleOp ≤ 1) ∧
    (∀ (p : PurchaseAccount) (t : TradeAccount) (l : Ledger)
      (w e bt st lt : Pubkey),
      p.settled = true → p.delivered_and_confirmed = true →
      confirm_delivery_and_purchase p t l p.buyer e st lt =
        .error .AlreadyConfirmed ∧
      cancel_purchase p t l p.buyer e bt = .error .AlreadyConfirmed ∧
      resolve_dispute p t l w e bt st lt =
        .error (if p.disputed = true then .AlreadySettled else .NotDisputed)) := by
  constructor
  · intro s ops s' h
    induction h with
    | nil => simp
    | cons hstep htail ih =>
      rename_i s1 s2 s3 op ops1
      rw [List.countP_cons]
      cases hop : isSettleOp op
      · simpa [hop] using ih
      · have hset := (runPOp_settle_ok hstep hop).2.1
        have hzero := ptrace_countP_zero htail hset
        simp [hop, hzero]
  · intro p t l w e bt st lt hs hd
    exact ⟨confirm_already_confirmed hd, cancel_already_confirmed hd,
      resolve_already_settled hs⟩

/-- Witness for C1 at the fixtures: a one-step trace that cancels the
fixture purchase has settle-count at most one, and the settled result
rejects a second `confirm` with `AlreadyConfirmed`. -/
theorem c1_witness :
    [POp.cancelOp 1 20 10].countP isSettleOp ≤ 1 ∧
    confirm_delivery_and_purchase pstate1.purchase pstate1.trade
      pstate1.ledger pstate1.purchase.buyer 20 30 40 =
      .error .AlreadyConfirmed :=
  ⟨c1_settlement_exactly_once.1 pstate0 [POp.cancelOp 1 20 10] pstate1
      (PTrace.cons rfl (PTrace.nil pstate1)),
    (c1_settlement_exactly_once.2 pstate1.purchase pstate1.trade
      pstate1.ledger 0 20 10 30 40 rfl rfl).1⟩

/-- C10. Purchases are created by `buy_trade` with `settled` and
`delivered_and_confirmed` both false; every successful purchase-level
operation preserves `settled = true → delivered_and_confirmed = true`;
and under that invariant `raise_dispute` on a settled purchase always
fails with `AlreadyConfirmed` (so it can never succeed on one). -/
theorem c10_settled_implies_delivered :
    (∀ (g : GlobalState) (t : TradeAccount) (b : BuyerAccount) (l : Ledger)
      (buyer btok etok : Pubkey) (tid q : Nat) (prov : Pubkey)
      (out : GlobalState × TradeAccount × PurchaseAccount × BuyerAccount × Ledger),
      buy_trade g t b l buyer btok etok tid q prov = .ok out →
      out.2.2.1.settled = false ∧ out.2.2.1.delivered_and_confirmed = false) ∧
    (∀ (s : PState) (ops : List POp) (s' : PState), PTrace s ops s' →
      (s.purchase.settled = true → s.purchase.delivered_and_confirmed = true) →
      (s'.purchase.settled = true → s'.purchase.delivered_and_confirmed = true)) ∧
    (∀ (p : PurchaseAccount) (u : Pubkey),
      p.settled = true → p.delivered_and_confirmed = true →
      raise_dispute p u = .error .AlreadyConfirmed) := by
  refine ⟨?_, ?_, ?_⟩
  · intro g t b l buyer btok etok tid q prov out h
    obtain ⟨-, -, -, -, -, -, -, -, -, -, -, -, hsettled, hdeliv, -, -⟩ :=
      buy_trade_ok h
    exact ⟨hsettled, hdeliv⟩
  · intro s ops s' h
    induction h with
    | nil => exact fun hi => hi
    | cons hstep htail ih =>
      rename_i s1 s2 s3 op ops1
      intro hi
      apply ih
      cases hop : isSettleOp op
      · cases op with
        | raiseOp u =>
          obtain ⟨h1, h2⟩ := runPOp_raise_ok hstep
          intro hset
          rw [h2]
          exact hi (h1 ▸ hset)
        | confirmOp buyer e st lt => simp [isSettleOp] at hop
        | resolveOp w e bt st lt => simp [isSettleOp] at hop
        | cancelOp buyer e bt => simp [isSettleOp] at hop
      · intro _
        exact (runPOp_settle_ok hstep hop).2.2
  · intro p u hs hd
    exact raise_already_confirmed hd

/-- Witness for C10 at the fixtures: the fixture purchase is created
unsettled, the invariant survives the cancelling trace, and
`raise_dispute` on the settled result fails with `AlreadyConfirmed`. -/
theorem c10_witness :
    ((pstate1.purchase.settled = true →
      pstate1.purchase.delivered_and_confirmed = true) ∧
    raise_dispute pstate1.purchase 9 = .error .AlreadyConfirmed) :=
  ⟨c10_settled_implies_delivered.2.1 pstate0 [POp.cancelOp 1 20 10] pstate1
      (PTrace.cons rfl (PTrace.nil pstate1)) (by decide),
    c10_settled_implies_delivered.2.2 pstate1.purchase 9 rfl rfl⟩

theorem unsettledSum_append (ps qs : List PurchaseAccount) :
    unsettledSum (ps ++ qs) = unsettledSum ps + unsettledSum qs := by
  simp [unsettledSum]

theorem unsettledSum_cons (p : PurchaseAccount) (ps : List PurchaseAccount) :
    unsettledSum (p :: ps) =
      (if p.settled then 0 else p.quantity) + unsettledSum ps := by
  simp [unsettledSum]

theorem unsettledSum_nil : unsettledSum [] = 0 := rfl

theorem unsettledSum_set (ps : List PurchaseAccount) (i : Nat)
    (p p' : PurchaseAccount) (h : ps[i]? = some p) :
    unsettledSum (ps.set i p') + (if p.settled then 0 else p.quantity) =
      unsettledSum ps + (if p'.settled then 0 else p'.quantity) := by
  induction ps generalizing i with
  | nil => simp at h
  | cons a as ih =>
    cases i with
    | zero =>
      simp only [List.getElem?_cons_zero, Option.some.injEq] at h
      subst h
      simp only [List.set_cons_zero, unsettledSum_cons]
      omega
    | succ n =>
      simp only [List.getElem?_cons_succ] at h
      simp only [List.set_cons_succ, unsettledSum_cons]
      have := ih n h
      omega

/-- Every successful trade-level step preserves inventory conservation. -/
theorem runTOp_preserves_InvT {s s' : TState} {op : TOp}
    (h : runTOp s op = .ok s') (hi : InvT s) : InvT s' := by
  cases op with
  | buyOp buyer provider btok etok q =>
    simp only [runTOp] at h
    cases hb : buy_trade s.global s.trade
        { buyer := buyer, is_registered := false, purchase_ids := [] }
        s.ledger buyer btok etok s.trade.trade_id q provider with
    | error e => rw [hb] at h; exact absurd h (by simp [Except.map])
    | ok r =>
      rw [hb] at h
      simp only [Except.map, Except.ok.injEq] at h
      subst h
      obtain ⟨hq, -, hle, -, hrem, htot, -, -, -, -, -, hqty, hsettled, -, -, -⟩ :=
        buy_trade_ok hb
      unfold InvT at hi ⊢
      simp only [unsettledSum_append, unsettledSum_cons, unsettledSum_nil,
        hrem, htot, hsettled, hqty]
      simp only [Bool.false_eq_true, if_false, add_zero]
      omega
  | raiseAt i u =>
    simp only [runTOp] at h
    cases hp : s.purchases[i]? with
    | none => rw [hp] at h; exact absurd h (by simp)
    | some p =>
      rw [hp] at h
      dsimp only at h
      cases hr : raise_dispute p u with
      | error e => rw [hr] at h; exact absurd h (by simp [Except.map])
      | ok p' =>
        rw [hr] at h
        simp only [Except.map, Except.ok.injEq] at h
        subst h
        obtain ⟨-, -, hp'⟩ := raise_dispute_ok hr
        have hset := unsettledSum_set s.purchases i p p' hp
        have hcontrib : (if p'.settled then 0 else p'.quantity) =
            (if p.settled then 0 else p.quantity) := by
          rw [hp']
        unfold InvT at hi ⊢
        dsimp only
        omega
  | cancelAt i e bt =>
    simp only [runTOp] at h
    cases hp : s.purchases[i]? with
    | none => rw [hp] at h; exact absurd h (by simp)
    | some p =>
      rw [hp] at h
      dsimp only at h
      cases hc : cancel_purchase p s.trade s.ledger p.buyer e bt with
      | error e2 => rw [hc] at h; exact absurd h (by simp [Except.map])
      | ok r =>
        rw [hc] at h
        simp only [Except.map, Except.ok.injEq] at h
        subst h
        obtain ⟨-, -, -, hsettled, hp', hrem, htot, -, -⟩ := cancel_purchase_ok hc
        have hset := unsettledSum_set s.purchases i p r.1 hp
        have hcontrib : (if r.1.settled then 0 else r.1.quantity) = 0 := by
          simp [hp']
        have hcp : (if p.settled then 0 else p.quantity) = p.quantity := by
          simp [hsettled]
        unfold InvT at hi ⊢
        dsimp only
        omega
  | resolveBuyerAt i e bt st lt =>
    simp only [runTOp] at h
    cases hp : s.purchases[i]? with
    | none => rw [hp] at h; exact absurd h (by simp)
    | some p =>
      rw [hp] at h
      dsimp only at h
      cases hc : resolve_dispute p s.trade s.ledger p.buyer e bt st lt with
      | error e2 => rw [hc] at h; exact absurd h (by simp [Except.map])
      | ok r =>
        rw [hc] at h
        simp only [Except.map, Except.ok.injEq] at h
        subst h
        obtain ⟨-, hsettled, hp', hrem, htot, -, -⟩ :=
          resolve_dispute_buyer_ok hc
        have hset := unsettledSum_set s.purchases i p r.1 hp
        have hcontrib : (if r.1.settled then 0 else r.1.quantity) = 0 := by
          simp [hp']
        have hcp : (if p.settled then 0 else p.quantity) = p.quantity := by
          simp [hsettled]
        unfold InvT at hi ⊢
        dsimp only
        omega

/-- Fresh global state before any purchase, trade counter already at 1. -/
def exGlobal : GlobalState :=
  { admin := 0, trade_counter := 1, purchase_counter := 0 }

/-- The trade as `create_trade` materialises it (cost 1000, one
logistics option of cost 100, total quantity 10). -/
def freshTrade : TradeAccount :=
  { trade_id := 1, seller := 2, logistics_providers := [3],
    logistics_costs := [100], product_cost := 1000, escrow_fee := 25,
    total_quantity := 10, remaining_quantity := 10, active := true,
    purchase_ids := [], token_mint := 5 }

/-- A buyer token account (key 10) funded with 5000. -/
def exBuyerLedger : Ledger := { balances := [(10, 5000)], frozen := [] }

/-- Trade-level state immediately after `create_trade`. -/
def tstate0 : TState :=
  { global := exGlobal, trade := freshTrade, purchases := [],
    ledger := exBuyerLedger }

/-- State `tstate0` after a purchase of quantity 3 (buyer 1, provider 3). -/
def tstate1 : TState :=
  { global := { admin := 0, trade_counter := 1, purchase_counter := 1 }
    trade := { freshTrade with remaining_quantity := 7, purchase_ids := [1] }
    purchases := [exPurchase]
    ledger := { balances := [(10, 1700), (20, 3300)], frozen := [] } }

/-- State `tstate1` after the buyer cancels that purchase. -/
def tstate2 : TState :=
  { global := { admin := 0, trade_counter := 1, purchase_counter := 1 }
    trade := { freshTrade with remaining_quantity := 10, purchase_ids := [1] }
    purchases :=
      [{ exPurchase with delivered_and_confirmed := true, settled := true }]
    ledger := { balances := [(10, 5000), (20, 0)], frozen := [] } }

/-- C2. A freshly created trade satisfies inventory conservation, every
successful sequence of `buy_trade` / `raise_dispute` / `cancel_purchase`
/ buyer-winner `resolve_dispute` steps preserves it, and it pins
`remaining_quantity` to `total_quantity` minus the total quantity of
un-refunded (unsettled) purchases, in particular never exceeding
`total_quantity` (nor, over `Nat`, going below zero). -/
theorem c2_inventory_conservation :
    (∀ (g : GlobalState) (seller mint : Pubkey) (cost : Nat)
      (ps : List Pubkey) (cs : List Nat) (q : Nat)
      (out : GlobalState × TradeAccount) (l : Ledger),
      create_trade g seller mint cost ps cs q = .ok out →
      InvT { global := out.1, trade := out.2, purchases := [], ledger := l }) ∧
    (∀ (s : TState) (ops : List TOp) (s' : TState),
      TTrace s ops s' → InvT s → InvT s') ∧
    (∀ s : TState, InvT s →
      s.trade.remaining_quantity =
        s.trade.total_quantity - unsettledSum s.purchases ∧
      s.trade.remaining_quantity ≤ s.trade.total_quantity) := by
  refine ⟨?_, ?_, ?_⟩
  · intro g seller mint cost ps cs q out l h
    unfold create_trade at h
    split at h
    · exact absurd h (by simp)
    split at h
    · exact absurd h (by simp)
    split at h
    · exact absurd h (by simp)
    split at h
    · exact absurd h (by simp)
    simp only [Except.ok.injEq] at h
    subst h
    simp [InvT, unsettledSum]
  · intro s ops s' h
    induction h with
    | nil => exact fun hi => hi
    | cons hstep htail ih => exact fun hi => ih (runTOp_preserves_InvT hstep hi)
  · intro s hi
    unfold InvT at hi
    omega

/-- Witness for C2: the created fixture state satisfies the invariant,
the invariant survives the concrete buy-then-cancel trace, and at its
end `remaining_quantity` is `total_quantity` minus the unsettled sum. -/
theorem c2_witness :
    InvT tstate0 ∧ InvT tstate2 ∧
    (tstate2.trade.remaining_quantity =
      tstate2.trade.total_quantity - unsettledSum tstate2.purchases ∧
    tstate2.trade.remaining_quantity ≤ tstate2.trade.total_quantity) :=
  ⟨c2_inventory_conservation.1
      { admin := 0, trade_counter := 0, purchase_counter := 0 } 2 5 1000
      [3] [100] 10 (exGlobal, freshTrade) exBuyerLedger rfl,
    c2_inventory_conservation.2.1 tstate0
      [TOp.buyOp 1 3 10 20 3, TOp.cancelAt 0 20 10] tstate2
      (@TTrace.cons tstate0 tstate1 tstate2 (TOp.buyOp 1 3 10 20 3)
        [TOp.cancelAt 0 20 10] (by decide)
        (@TTrace.cons tstate1 tstate2 tstate2 (TOp.cancelAt 0 20 10) [] (by decide)
          (TTrace.nil tstate2))) (by unfold InvT; decide),
    c2_inventory_conservation.2.2 tstate2 (by unfold InvT; decide)⟩

/-- C3. For every purchase produced by `buy_trade`, the seller payout
plus the logistics payout plus the product fee plus the logistics fee
computed by the settlement paths (`confirm_delivery_and_purchase` and
the seller/provider branch of `resolve_dispute`, which both read the
trade's `product_cost` and the purchase's `quantity` and
`logistics_cost`) equals the purchase's `total_amount`. -/
theorem c3_fee_conservation :
    ∀ (g : GlobalState) (t : TradeAccount) (b : BuyerAccount) (l : Ledger)
      (buyer btok etok : Pubkey) (tid q : Nat) (prov : Pubkey)
      (out : GlobalState × TradeAccount × PurchaseAccount × BuyerAccount × Ledger),
      buy_trade g t b l buyer btok etok tid q prov = .ok out →
      seller_amount out.2.1.product_cost out.2.2.1.quantity +
        logistics_amount out.2.2.1.logistics_cost +
        product_escrow_fee out.2.1.product_cost out.2.2.1.quantity +
        logistics_escrow_fee out.2.2.1.logistics_cost =
        out.2.2.1.total_amount := by
  intro g t b l buyer btok etok tid q prov out h
  obtain ⟨-, -, -, -, -, -, hpc, -, -, -, -, hqty, -, -, -, lc, hfind, hlc, hta⟩ :=
    buy_trade_ok h
  rw [hpc, hqty, hlc, hta]
  exact fee_split_conserves t.product_cost q (lc * q)

/-- The result of the fixture buy: counter bumped, inventory decremented,
`exPurchase` created, buyer auto-registered, escrow funded. -/
def exBuyOut :
    GlobalState × TradeAccount × PurchaseAccount × BuyerAccount × Ledger :=
  ({ admin := 0, trade_counter := 1, purchase_counter := 1 },
    { freshTrade with remaining_quantity := 7, purchase_ids := [1] },
    exPurchase,
    { buyer := 1, is_registered := true, purchase_ids := [1] },
    { balances := [(10, 1700), (20, 3300)], frozen := [] })

/-- Witness for C3 at the fixture purchase (2925 + 293 + 75 + 7 = 3300). -/
theorem c3_witness :
    seller_amount exBuyOut.2.1.product_cost exBuyOut.2.2.1.quantity +
      logistics_amount exBuyOut.2.2.1.logistics_cost +
      product_escrow_fee exBuyOut.2.1.product_cost exBuyOut.2.2.1.quantity +
      logistics_escrow_fee exBuyOut.2.2.1.logistics_cost =
      exBuyOut.2.2.1.total_amount :=
  c3_fee_conservation exGlobal freshTrade
    { buyer := 1, is_registered := false, purchase_ids := [] }
    exBuyerLedger 1 10 20 1 3 3 exBuyOut (by decide)

/-- Instruction `resolve_dispute` either restores inventory with possible
reactivation (buyer winner) or leaves the trade record untouched. -/
theorem resolve_dispute_trade_cases {p : PurchaseAccount} {t : TradeAccount}
    {l : Ledger} {w e bt st lt : Pubkey}
    {out : PurchaseAccount × TradeAccount × Ledger}
    (h : resolve_dispute p t l w e bt st lt = .ok out) :
    (out.2.1.remaining_quantity = t.remaining_quantity + p.quantity ∧
      (out.2.1.active = true ↔
        (t.active = true ∨ 0 < t.remaining_quantity + p.quantity))) ∨
    out.2.1 = t := by
  unfold resolve_dispute at h
  split at h
  · exact absurd h (by simp)
  split at h
  · exact absurd h (by simp)
  split at h
  · exact absurd h (by simp)
  dsimp only at h
  split at h
  · split at h
    · exact absurd h (by simp)
    simp only [Except.ok.injEq] at h
    subst h
    left
    refine ⟨by split <;> rfl, ?_⟩
    constructor
    · intro hact
      split at hact <;> simp_all
    · intro hor
      split
      · rfl
      next hcond =>
        simp only [not_and, not_lt, Nat.le_zero] at hcond
        rcases hor with ha | hpos
        · simpa using ha
        · by_cases hta : t.active = true
          · simpa using hta
          · exact absurd (hcond (by simpa using hta)) (by omega)
  · split at h
    · exact absurd h (by simp)
    split at h
    · exact absurd h (by simp)
    simp only [Except.ok.injEq] at h
    subst h
    exact Or.inr rfl

/-- C4. `trade.active = (remaining_quantity > 0)` holds after a
successful `create_trade`, and is preserved by successful `buy_trade`,
`cancel_purchase` and `resolve_dispute` calls whenever it held before. -/
theorem c4_activation_invariant :
    (∀ (g : GlobalState) (seller mint : Pubkey) (cost : Nat)
      (ps : List Pubkey) (cs : List Nat) (q : Nat)
      (out : GlobalState × TradeAccount),
      create_trade g seller mint cost ps cs q = .ok out →
      (out.2.active = true ↔ 0 < out.2.remaining_quantity)) ∧
    (∀ (g : GlobalState) (t : TradeAccount) (b : BuyerAccount) (l : Ledger)
      (buyer btok etok : Pubkey) (tid q : Nat) (prov : Pubkey)
      (out : GlobalState × TradeAccount × PurchaseAccount × BuyerAccount × Ledger),
      (t.active = true ↔ 0 < t.remaining_quantity) →
      buy_trade g t b l buyer btok etok tid q prov = .ok out →
      (out.2.1.active = true ↔ 0 < out.2.1.remaining_quantity)) ∧
    (∀ (p : PurchaseAccount) (t : TradeAccount) (l : Ledger)
      (buyer e bt : Pubkey) (out : PurchaseAccount × TradeAccount × Ledger),
      (t.active = true ↔ 0 < t.remaining_quantity) →
      cancel_purchase p t l buyer e bt = .ok out →
      (out.2.1.active = true ↔ 0 < out.2.1.remaining_quantity)) ∧
    (∀ (p : PurchaseAccount) (t : TradeAccount) (l : Ledger)
      (w e bt st lt : Pubkey) (out : PurchaseAccount × TradeAccount × Ledger),
      (t.active = true ↔ 0 < t.remaining_quantity) →
      resolve_dispute p t l w e bt st lt = .ok out →
      (out.2.1.active = true ↔ 0 < out.2.1.remaining_quantity)) := by
  refine ⟨?_, ?_, ?_, ?_⟩
  · intro g seller mint cost ps cs q out h
    unfold create_trade at h
    split at h
    · exact absurd h (by simp)
    split at h
    · exact absurd h (by simp)
    split at h
    · exact absurd h (by simp)
    split at h
    · exact absurd h (by simp)
    next hq =>
    simp only [Except.ok.injEq] at h
    subst h
    simp only [not_not] at hq
    simpa using hq
  · intro g t b l buyer btok etok tid q prov out hi h
    obtain ⟨-, hta, -, -, hrem, -, -, -, hact, -⟩ := buy_trade_ok h
    rw [hact, hrem]
    split
    next hz => simp [hz]
    next hz => simp [hta]; omega
  · intro p t l buyer e bt out hi h
    obtain ⟨-, -, -, -, -, hrem, -, -, hiff⟩ := cancel_purchase_ok h
    rw [hrem, hiff]
    constructor
    · rintro (ha | hq)
      · have := hi.mp ha
        omega
      · exact hq
    · exact fun hq => Or.inr hq
  · intro p t l w e bt st lt out hi h
    rcases resolve_dispute_trade_cases h with ⟨hrem, hiff⟩ | heq
    · rw [hrem, hiff]
      constructor
      · rintro (ha | hq)
        · have := hi.mp ha
          omega
        · exact hq
      · exact fun hq => Or.inr hq
    · rw [heq]
      exact hi

/-- Witness for C4: the invariant at each of the four operations on the
concrete fixtures (creation, the fixture buy, its cancellation, and a
buyer-winner resolution of a disputed copy of the purchase). -/
theorem c4_witness :
    (freshTrade.active = true ↔ 0 < freshTrade.remaining_quantity) ∧
    (exBuyOut.2.1.active = true ↔ 0 < exBuyOut.2.1.remaining_quantity) :=
  ⟨c4_activation_invariant.1
      { admin := 0, trade_counter := 0, purchase_counter := 0 } 2 5 1000
      [3] [100] 10 (exGlobal, freshTrade) (by decide),
    c4_activation_invariant.2.1 exGlobal freshTrade
      { buyer := 1, is_registered := false, purchase_ids := [] }
      exBuyerLedger 1 10 20 1 3 3 exBuyOut (by decide) (by decide)⟩

/-- C5. The fixture numbers of the spec: cost 1000, one logistics option
of unit cost 100, quantity 3 give total 3300, product fee 75, seller
payout 2925, logistics fee 7 and logistics payout 293 (floor division,
never rounded up). -/
theorem c5_fee_arithmetic :
    ((buy_trade exGlobal freshTrade
        { buyer := 1, is_registered := false, purchase_ids := [] }
        exBuyerLedger 1 10 20 1 3 3).map
      fun r => (r.2.2.1.total_amount, r.2.2.1.logistics_cost)).toOption =
      some (3300, 300) ∧
    product_escrow_fee 1000 3 = 75 ∧
    seller_amount 1000 3 = 2925 ∧
    logistics_escrow_fee 300 = 7 ∧
    logistics_amount 300 = 293 := by decide

/-- C6. The `create_trade` validation cascade in source order, first
failure winning (the spec names the errors `ArityMismatch`,
`NoLogisticsOptions`, `TooManyProviders`, `InvalidQuantity`; the code's
corresponding variants are `MismatchedArrays`, `NoLogisticsProviders`,
`TooManyProviders`, `InvalidQuantity`), and the successful outcome:
`remaining_quantity = total_quantity`, `active = true`, empty
`purchase_ids`. -/
theorem c6_create_trade_validation :
    ∀ (g : GlobalState) (seller mint : Pubkey) (cost : Nat)
      (ps : List Pubkey) (cs : List Nat) (q : Nat),
      (ps.length ≠ cs.length →
        create_trade g seller mint cost ps cs q = .error .MismatchedArrays) ∧
      (ps.length = cs.length → ps = [] →
        create_trade g seller mint cost ps cs q = .error .NoLogisticsProviders) ∧
      (ps.length = cs.length → ps ≠ [] →
        MAX_LOGISTICS_PROVIDERS < ps.length →
        create_trade g seller mint cost ps cs q = .error .TooManyProviders) ∧
      (ps.length = cs.length → ps ≠ [] →
        ps.length ≤ MAX_LOGISTICS_PROVIDERS → q = 0 →
        create_trade g seller mint cost ps cs q = .error .InvalidQuantity) ∧
      (∀ out : GlobalState × TradeAccount,
        create_trade g seller mint cost ps cs q = .ok out →
        out.2.remaining_quantity = q ∧ out.2.active = true ∧
        out.2.purchase_ids = [] ∧ out.2.total_quantity = q ∧
        out.1.trade_counter = g.trade_counter + 1) := by
  intro g seller mint cost ps cs q
  refine ⟨?_, ?_, ?_, ?_, ?_⟩
  · intro hne
    unfold create_trade
    rw [if_pos hne]
  · intro heq hnil
    unfold create_trade
    rw [if_neg (not_not_intro heq), if_pos (by simp [hnil])]
  · intro heq hne hlt
    unfold create_trade
    rw [if_neg (not_not_intro heq),
      if_neg (by simp [List.isEmpty_iff, hne]),
      if_pos (by omega)]
  · intro heq hne hle hq
    unfold create_trade
    rw [if_neg (not_not_intro heq),
      if_neg (by simp [List.isEmpty_iff, hne]),
      if_neg (not_not_intro hle), if_pos (by omega)]
  · intro out h
    unfold create_trade at h
    split at h
    · exact absurd h (by simp)
    split at h
    · exact absurd h (by simp)
    split at h
    · exact absurd h (by simp)
    split at h
    · exact absurd h (by simp)
    simp only [Except.ok.injEq] at h
    subst h
    exact ⟨rfl, rfl, rfl, rfl, rfl⟩

/-- Witness for C6: each validation failure and the successful creation,
at concrete inputs. -/
theorem c6_witness :
    create_trade exGlobal 2 5 1000 [3] [] 10 = .error .MismatchedArrays ∧
    create_trade exGlobal 2 5 1000 [] [] 10 = .error .NoLogisticsProviders ∧
    create_trade exGlobal 2 5 1000 [1, 2, 3, 4, 5, 6, 7, 8, 9, 10, 11]
      (List.replicate 11 9) 10 = .error .TooManyProviders ∧
    create_trade exGlobal 2 5 1000 [3] [100] 0 = .error .InvalidQuantity ∧
    (freshTrade.remaining_quantity = 10 ∧ freshTrade.active = true ∧
      freshTrade.purchase_ids = [] ∧ freshTrade.total_quantity = 10 ∧
      exGlobal.trade_counter =
        (GlobalState.mk 0 0 0).trade_counter + 1) :=
  ⟨(c6_create_trade_validation exGlobal 2 5 1000 [3] [] 10).1 (by decide),
    (c6_create_trade_validation exGlobal 2 5 1000 [] [] 10).2.1 rfl rfl,
    (c6_create_trade_validation exGlobal 2 5 1000
      [1, 2, 3, 4, 5, 6, 7, 8, 9, 10, 11] (List.replicate 11 9) 10).2.2.1
      (by decide) (by decide) (by decide),
    (c6_create_trade_validation exGlobal 2 5 1000 [3] [100] 0).2.2.2.1
      (by decide) (by decide) (by decide) rfl,
    (c6_create_trade_validation (GlobalState.mk 0 0 0) 2 5 1000 [3] [100]
      10).2.2.2.2 (exGlobal, freshTrade) (by decide)⟩

/-- Modelled from the spec: the surrounding persistence layer (§1, §5)
loads, mutates and saves each entity atomically per operation, so an
instruction that returns an error commits nothing.  Committed state of a
`buy_trade` call. -/
def apply_buy_trade (g : GlobalState) (t : TradeAccount) (b : BuyerAccount)
    (l : Ledger) (buyer btok etok : Pubkey) (tid q : Nat) (prov : Pubkey) :
    GlobalState × TradeAccount × BuyerAccount × Ledger :=
  match buy_trade g t b l buyer btok etok tid q prov with
  | .ok r => (r.1, r.2.1, r.2.2.2.1, r.2.2.2.2)
  | .error _ => (g, t, b, l)

/-- Committed state of a `confirm_delivery_and_purchase` call. -/
def apply_confirm (p : PurchaseAccount) (t : TradeAccount) (l : Ledger)
    (buyer e st lt : Pubkey) : PurchaseAccount × Ledger :=
  match confirm_delivery_and_purchase p t l buyer e st lt with
  | .ok r => r
  | .error _ => (p, l)

/-- Committed state of a `resolve_dispute` call. -/
def apply_resolve (p : PurchaseAccount) (t : TradeAccount) (l : Ledger)
    (w e bt st lt : Pubkey) : PurchaseAccount × TradeAccount × Ledger :=
  match resolve_dispute p t l w e bt st lt with
  | .ok r => r
  | .error _ => (p, t, l)

/-- Committed state of a `cancel_purchase` call. -/
def apply_cancel (p : PurchaseAccount) (t : TradeAccount) (l : Ledger)
    (buyer e bt : Pubkey) : PurchaseAccount × TradeAccount × Ledger :=
  match cancel_purchase p t l buyer e bt with
  | .ok r => r
  | .error _ => (p, t, l)

/-- Committed global state of a `create_trade` call. -/
def apply_create (g : GlobalState) (seller mint : Pubkey) (cost : Nat)
    (ps : List Pubkey) (cs : List Nat) (q : Nat) : GlobalState :=
  match create_trade g seller mint cost ps cs q with
  | .ok r => r.1
  | .error _ => g

/-- C7. An operation that returns an error (a guard rejection or a
failed Ledger transfer) commits no change at all: the committed
GlobalState, Trade, Purchase, BuyerAccount and Ledger state after the
call equals the state before it. -/
theorem c7_failed_ops_leave_state_unchanged :
    (∀ (g : GlobalState) (t : TradeAccount) (b : BuyerAccount) (l : Ledger)
      (buyer btok etok : Pubkey) (tid q : Nat) (prov : Pubkey)
      (e : LogisticsError),
      buy_trade g t b l buyer btok etok tid q prov = .error e →
      apply_buy_trade g t b l buyer btok etok tid q prov = (g, t, b, l)) ∧
    (∀ (p : PurchaseAccount) (t : TradeAccount) (l : Ledger)
      (buyer es st lt : Pubkey) (e : LogisticsError),
      confirm_delivery_and_purchase p t l buyer es st lt = .error e →
      apply_confirm p t l buyer es st lt = (p, l)) ∧
    (∀ (p : PurchaseAccount) (t : TradeAccount) (l : Ledger)
      (w es bt st lt : Pubkey) (e : LogisticsError),
      resolve_dispute p t l w es bt st lt = .error e →
      apply_resolve p t l w es bt st lt = (p, t, l)) ∧
    (∀ (p : PurchaseAccount) (t : TradeAccount) (l : Ledger)
      (buyer es bt : Pubkey) (e : LogisticsError),
      cancel_purchase p t l buyer es bt = .error e →
      apply_cancel p t l buyer es bt = (p, t, l)) ∧
    (∀ (g : GlobalState) (seller mint : Pubkey) (cost : Nat)
      (ps : List Pubkey) (cs : List Nat) (q : Nat) (e : LogisticsError),
      create_trade g seller mint cost ps cs q = .error e →
      apply_create g seller mint cost ps cs q = g) := by
  refine ⟨?_, ?_, ?_, ?_, ?_⟩
  · intro g t b l buyer btok etok tid q prov e h
    unfold apply_buy_trade
    rw [h]
  · intro p t l buyer es st lt e h
    unfold apply_confirm
    rw [h]
  · intro p t l w es bt st lt e h
    unfold apply_resolve
    rw [h]
  · intro p t l buyer es bt e h
    unfold apply_cancel
    rw [h]
  · intro g seller mint cost ps cs q e h
    unfold apply_create
    rw [h]

/-- Witness for C7: `confirm` on the fixture purchase over an unfunded
escrow fails at the Ledger transfer (after the source had already set
the purchase flags in memory), and the committed state is exactly the
pre-call state. -/
theorem c7_witness :
    apply_confirm exPurchase freshTrade { balances := [], frozen := [] }
      1 20 30 40 = (exPurchase, { balances := [], frozen := [] }) :=
  c7_failed_ops_leave_state_unchanged.2.1 exPurchase freshTrade
    { balances := [], frozen := [] } 1 20 30 40 .TransferFailed (by decide)

/-- The modulus of wrapping `u64` arithmetic. -/
def U64_MOD : Nat := 2 ^ 64

/-- Line 142 of the source (`trade_account.product_cost * quantity`)
under the release-profile wrapping semantics of an unchecked `u64`
multiplication. -/
def total_product_cost_u64 (product_cost quantity : Nat) : Nat :=
  product_cost * quantity % U64_MOD

/-- Modelled from the spec: §7 requires every multiplication performed
before the division to be checked/widened, failing with a fatal
`Overflow` (`none`) instead of wrapping. -/
def checked_mul_u64 (a b : Nat) : Option Nat :=
  if a * b < U64_MOD then some (a * b) else none

/-- C8 (refuted by the code): at `product_cost = 2 ^ 63`, `quantity = 2`
the unchecked multiplication of `buy_trade` wraps silently to 0 — it
does not equal the mathematical product and raises no error — whereas
the checked multiplication the claim requires reports overflow. -/
theorem c8_unchecked_multiplication_wraps :
    total_product_cost_u64 (2 ^ 63) 2 = 0 ∧
    total_product_cost_u64 (2 ^ 63) 2 ≠ 2 ^ 63 * 2 ∧
    checked_mul_u64 (2 ^ 63) 2 = none := by decide

/-- A trade whose `purchase_ids` list is already at `MAX_PURCHASE_IDS`. -/
def capTrade : TradeAccount :=
  { freshTrade with purchase_ids := List.replicate 100 7 }

/-- C9. When `buy_trade` succeeds against a trade whose `purchase_ids`
already holds `MAX_PURCHASE_IDS` entries, the new id is silently dropped
(the list is unchanged, still at the cap, and no error is raised), while
the purchase itself is still created with the fresh id and the trade's
`remaining_quantity` is still decremented by the purchased quantity. -/
theorem c9_purchase_ids_cap :
    ∀ (g : GlobalState) (t : TradeAccount) (b : BuyerAccount) (l : Ledger)
      (buyer btok etok : Pubkey) (tid q : Nat) (prov : Pubkey)
      (out : GlobalState × TradeAccount × PurchaseAccount × BuyerAccount × Ledger),
      t.purchase_ids.length = MAX_PURCHASE_IDS →
      buy_trade g t b l buyer btok etok tid q prov = .ok out →
      out.2.1.purchase_ids = t.purchase_ids ∧
      out.2.1.purchase_ids.length = MAX_PURCHASE_IDS ∧
      out.2.2.1.purchase_id = g.purchase_counter + 1 ∧
      out.2.2.1.quantity = q ∧
      out.2.1.remaining_quantity = t.remaining_quantity - q := by
  intro g t b l buyer btok etok tid q prov out hcap h
  obtain ⟨-, -, -, -, hrem, -, -, hids, -, hpid, -, hqty, -⟩ := buy_trade_ok h
  rw [hids, if_neg (by omega)]
  exact ⟨rfl, hcap, hpid, hqty, hrem⟩

/-- Result of the fixture buy against the at-cap trade: list unchanged,
purchase still created, inventory still decremented. -/
def capBuyOut :
    GlobalState × TradeAccount × PurchaseAccount × BuyerAccount × Ledger :=
  ({ admin := 0, trade_counter := 1, purchase_counter := 1 },
    { capTrade with remaining_quantity := 7 },
    exPurchase,
    { buyer := 1, is_registered := true, purchase_ids := [1] },
    { balances := [(10, 1700), (20, 3300)], frozen := [] })

/-- Witness for C9 at the at-cap fixture trade. -/
theorem c9_witness :
    capBuyOut.2.1.purchase_ids = capTrade.purchase_ids ∧
    capBuyOut.2.1.purchase_ids.length = MAX_PURCHASE_IDS ∧
    capBuyOut.2.2.1.purchase_id = exGlobal.purchase_counter + 1 ∧
    capBuyOut.2.2.1.quantity = 3 ∧
    capBuyOut.2.1.remaining_quantity = capTrade.remaining_quantity - 3 :=
  c9_purchase_ids_cap exGlobal capTrade
    { buyer := 1, is_registered := false, purchase_ids := [] }
    exBuyerLedger 1 10 20 1 3 3 capBuyOut (by decide) (by decide)

end Dezenmart
